import Mathlib

/-!
Verification of the Hybrid PONV risk-scoring program
(`validation_dashboard.py`).

The program's core is the pure function `score_patient`, which maps one
patient record (binary risk indicators plus continuous drug doses) to an
integer risk score, a cohort-level application of it, and a CSV export of
the scored table.  We embed the record shape, the scoring function, the
cohort mapping and the structural part of the CSV export, and prove the
specified properties about them.

Binary indicator fields carry `Int` (pandas int64 columns); dose fields
carry `Rat`, modelling the exact decimal values the Python floats denote at
the thresholds the program compares against (all thresholds and test
values used here are exactly representable in binary-free decimal reading;
the comparisons in the program are plain `>=` and `>` on these values).
-/

/-- A patient record, with the exact field set and declaration order of the
synthetic-data schema in `generate_synthetic_data` (four semantic groups:
patient-specific, surgical, drug dose, muscle relaxant, postoperative
symptom fields). Binary indicator fields are integers; dose fields are
rationals. -/
structure PatientRecord where
  Gender_Female : Int
  Non_Smoker : Int
  History_PONV_or_MS : Int
  Age_Less_50 : Int
  Anxiety : Int
  Migraine : Int
  Obese_BMI_30 : Int
  Abdominal_Lap_Surgery : Int
  ENT_Neuro_Eye_Surgery : Int
  Gynae_Breast_Surgery : Int
  Surgery_gt_60min : Int
  BloodLoss_gt_500ml : Int
  Ondansetron_mg : Rat
  Midazolam_mg_per_kg : Rat
  Dexamethasone_mg : Rat
  Glycopyrrolate_mg : Rat
  Nalbuphine_mg : Rat
  Fentanyl_mcg_per_kg : Rat
  Butorphanol_mg : Rat
  Pentazocine_mg : Rat
  Propofol_TIVA : Int
  Propofol_InductionOnly : Int
  Volatile_Agents_MAC : Rat
  Succinylcholine : Int
  Atracurium : Int
  Cisatracurium : Int
  Vecuronium : Int
  Nausea_gt_30min : Int
  Vomiting_gt_2 : Int
  Abdominal_Discomfort : Int

/-- The scoring function, transcribed term by term from `score_patient`
(lines 79-118 of the source): a running integer total over the binary
products, the dose-threshold conditionals, and the two Propofol equality
tests; the four muscle-relaxant fields are not read. -/
def score_patient (row : PatientRecord) : Int :=
  row.Gender_Female * 1
  + row.Non_Smoker * 1
  + row.History_PONV_or_MS * 2
  + row.Age_Less_50 * 1
  + row.Anxiety * 1
  + row.Migraine * 1
  + row.Obese_BMI_30 * 1
  + row.Abdominal_Lap_Surgery * 2
  + row.ENT_Neuro_Eye_Surgery * 1
  + row.Gynae_Breast_Surgery * 2
  + row.Surgery_gt_60min * 1
  + row.BloodLoss_gt_500ml * 1
  + (if row.Ondansetron_mg ≥ 4 then -2 else 0)
  + (if row.Midazolam_mg_per_kg ≥ 0.05 then -2 else 0)
  + (if row.Dexamethasone_mg ≥ 4 then -1 else 0)
  + (if row.Glycopyrrolate_mg > 0.2 then 1 else 0)
  + (if row.Nalbuphine_mg > 50 then 1 else 0)
  + (if row.Fentanyl_mcg_per_kg > 5 then 3 else 0)
  + (if row.Butorphanol_mg > 2 then 1 else 0)
  + (if row.Pentazocine_mg > 100 then 3 else 0)
  + (if row.Propofol_TIVA = 1 then -3 else 0)
  + (if row.Propofol_InductionOnly = 1 then -1 else 0)
  + (if row.Volatile_Agents_MAC > 1 then 2 else 0)
  + row.Nausea_gt_30min * 1
  + row.Vomiting_gt_2 * 2
  + row.Abdominal_Discomfort * 1

/-- The all-zero / all-minimum record: every binary indicator 0, every
dose 0, both Propofol flags 0. -/
def baseline : PatientRecord :=
  { Gender_Female := 0, Non_Smoker := 0, History_PONV_or_MS := 0
    Age_Less_50 := 0, Anxiety := 0, Migraine := 0, Obese_BMI_30 := 0
    Abdominal_Lap_Surgery := 0, ENT_Neuro_Eye_Surgery := 0
    Gynae_Breast_Surgery := 0, Surgery_gt_60min := 0, BloodLoss_gt_500ml := 0
    Ondansetron_mg := 0, Midazolam_mg_per_kg := 0, Dexamethasone_mg := 0
    Glycopyrrolate_mg := 0, Nalbuphine_mg := 0, Fentanyl_mcg_per_kg := 0
    Butorphanol_mg := 0, Pentazocine_mg := 0
    Propofol_TIVA := 0, Propofol_InductionOnly := 0, Volatile_Agents_MAC := 0
    Succinylcholine := 0, Atracurium := 0, Cisatracurium := 0, Vecuronium := 0
    Nausea_gt_30min := 0, Vomiting_gt_2 := 0, Abdominal_Discomfort := 0 }

/-- Validity of a record, as the data-model invariant states it: every
binary field is 0 or 1 and every dose field is nonnegative. -/
def ValidRecord (r : PatientRecord) : Prop :=
  (r.Gender_Female = 0 ∨ r.Gender_Female = 1)
  ∧ (r.Non_Smoker = 0 ∨ r.Non_Smoker = 1)
  ∧ (r.History_PONV_or_MS = 0 ∨ r.History_PONV_or_MS = 1)
  ∧ (r.Age_Less_50 = 0 ∨ r.Age_Less_50 = 1)
  ∧ (r.Anxiety = 0 ∨ r.Anxiety = 1)
  ∧ (r.Migraine = 0 ∨ r.Migraine = 1)
  ∧ (r.Obese_BMI_30 = 0 ∨ r.Obese_BMI_30 = 1)
  ∧ (r.Abdominal_Lap_Surgery = 0 ∨ r.Abdominal_Lap_Surgery = 1)
  ∧ (r.ENT_Neuro_Eye_Surgery = 0 ∨ r.ENT_Neuro_Eye_Surgery = 1)
  ∧ (r.Gynae_Breast_Surgery = 0 ∨ r.Gynae_Breast_Surgery = 1)
  ∧ (r.Surgery_gt_60min = 0 ∨ r.Surgery_gt_60min = 1)
  ∧ (r.BloodLoss_gt_500ml = 0 ∨ r.BloodLoss_gt_500ml = 1)
  ∧ 0 ≤ r.Ondansetron_mg
  ∧ 0 ≤ r.Midazolam_mg_per_kg
  ∧ 0 ≤ r.Dexamethasone_mg
  ∧ 0 ≤ r.Glycopyrrolate_mg
  ∧ 0 ≤ r.Nalbuphine_mg
  ∧ 0 ≤ r.Fentanyl_mcg_per_kg
  ∧ 0 ≤ r.Butorphanol_mg
  ∧ 0 ≤ r.Pentazocine_mg
  ∧ (r.Propofol_TIVA = 0 ∨ r.Propofol_TIVA = 1)
  ∧ (r.Propofol_InductionOnly = 0 ∨ r.Propofol_InductionOnly = 1)
  ∧ 0 ≤ r.Volatile_Agents_MAC
  ∧ (r.Succinylcholine = 0 ∨ r.Succinylcholine = 1)
  ∧ (r.Atracurium = 0 ∨ r.Atracurium = 1)
  ∧ (r.Cisatracurium = 0 ∨ r.Cisatracurium = 1)
  ∧ (r.Vecuronium = 0 ∨ r.Vecuronium = 1)
  ∧ (r.Nausea_gt_30min = 0 ∨ r.Nausea_gt_30min = 1)
  ∧ (r.Vomiting_gt_2 = 0 ∨ r.Vomiting_gt_2 = 1)
  ∧ (r.Abdominal_Discomfort = 0 ∨ r.Abdominal_Discomfort = 1)

instance (r : PatientRecord) : Decidable (ValidRecord r) := by
  unfold ValidRecord; infer_instance

/-!
## Spec-side rule table

A second, independent formalisation of the scoring contract, written from
the specification's rule table (field, condition, weight) as first-class
data: binary rules contribute weight times the field value; threshold
rules contribute their weight iff the comparator holds; equality rules
contribute their weight iff the field equals 1.  `score_patient` above is
the code; `specScore` below is the table; the refinement claim compares
the two.
-/

/-- One rule of the specification's table: a binary rule (weight times the
0/1 field value), an inclusive threshold rule, a strict threshold rule, or
an equality-against-1 rule (the two Propofol technique flags). -/
inductive SpecRule where
  | binary (f : PatientRecord → Int) (w : Int)
  | thresholdGe (f : PatientRecord → Rat) (t : Rat) (w : Int)
  | thresholdGt (f : PatientRecord → Rat) (t : Rat) (w : Int)
  | eqOne (f : PatientRecord → Int) (w : Int)

/-- Contribution of one rule on one record. -/
def SpecRule.contrib (r : PatientRecord) : SpecRule → Int
  | .binary f w => w * f r
  | .thresholdGe f t w => if f r ≥ t then w else 0
  | .thresholdGt f t w => if f r > t then w else 0
  | .eqOne f w => if f r = 1 then w else 0

/-- The weight of a rule. -/
def SpecRule.weight : SpecRule → Int
  | .binary _ w => w
  | .thresholdGe _ _ w => w
  | .thresholdGt _ _ w => w
  | .eqOne _ w => w

/-- The specification's exact rule table, row for row in its stated order:
every (field, condition, weight) line, with inclusive versus strict
comparators exactly as declared.  The four muscle-relaxant fields have no
rule. -/
def specRuleTable : List SpecRule :=
  [ .binary (·.Gender_Female) 1
  , .binary (·.Non_Smoker) 1
  , .binary (·.History_PONV_or_MS) 2
  , .binary (·.Age_Less_50) 1
  , .binary (·.Anxiety) 1
  , .binary (·.Migraine) 1
  , .binary (·.Obese_BMI_30) 1
  , .binary (·.Abdominal_Lap_Surgery) 2
  , .binary (·.ENT_Neuro_Eye_Surgery) 1
  , .binary (·.Gynae_Breast_Surgery) 2
  , .binary (·.Surgery_gt_60min) 1
  , .binary (·.BloodLoss_gt_500ml) 1
  , .thresholdGe (·.Ondansetron_mg) 4 (-2)
  , .thresholdGe (·.Midazolam_mg_per_kg) 0.05 (-2)
  , .thresholdGe (·.Dexamethasone_mg) 4 (-1)
  , .thresholdGt (·.Glycopyrrolate_mg) 0.2 1
  , .thresholdGt (·.Nalbuphine_mg) 50 1
  , .thresholdGt (·.Fentanyl_mcg_per_kg) 5 3
  , .thresholdGt (·.Butorphanol_mg) 2 1
  , .thresholdGt (·.Pentazocine_mg) 100 3
  , .eqOne (·.Propofol_TIVA) (-3)
  , .eqOne (·.Propofol_InductionOnly) (-1)
  , .thresholdGt (·.Volatile_Agents_MAC) 1 2
  , .binary (·.Nausea_gt_30min) 1
  , .binary (·.Vomiting_gt_2) 2
  , .binary (·.Abdominal_Discomfort) 1 ]

/-- Spec-side score: the sum over every rule of the table of its
contribution. -/
def specScore (r : PatientRecord) : Int :=
  (specRuleTable.map (fun rule => rule.contrib r)).sum

/-!
## Cohort scoring and export

Line 120 of the source scores the whole synthetic table by applying
`score_patient` to each row and attaching the result as a new column
`Hybrid_PONV_Score`; `convert_df` then serialises the augmented table with
`to_csv(index=False)`, i.e. a header row of the column names (dictionary
insertion order plus the appended score column), one data row per record
in order, and no index column.  We model the augmented table as a list of
scored records and the CSV structurally: the header as the column-name
list and each data row as the list of the record's 31 cell values (cell
formatting to text is abstracted to the exact rational value of the
cell). -/

/-- A scored record: the input record plus the derived
`Hybrid_PONV_Score` column. -/
structure ScoredRecord where
  record : PatientRecord
  Hybrid_PONV_Score : Int

/-- Cohort scoring, from line 120 of the source: each row mapped
independently to itself extended with its score. -/
def scoreCohort (cohort : List PatientRecord) : List ScoredRecord :=
  cohort.map (fun r => { record := r, Hybrid_PONV_Score := score_patient r })

/-- The column names of the scored table, in order: the schema fields in
declaration order followed by the appended score column. -/
def columns : List String :=
  [ "Gender_Female", "Non_Smoker", "History_PONV_or_MS", "Age_Less_50"
  , "Anxiety", "Migraine", "Obese_BMI_30"
  , "Abdominal_Lap_Surgery", "ENT_Neuro_Eye_Surgery", "Gynae_Breast_Surgery"
  , "Surgery_gt_60min", "BloodLoss_gt_500ml"
  , "Ondansetron_mg", "Midazolam_mg_per_kg", "Dexamethasone_mg"
  , "Glycopyrrolate_mg", "Nalbuphine_mg", "Fentanyl_mcg_per_kg"
  , "Butorphanol_mg", "Pentazocine_mg"
  , "Propofol_TIVA", "Propofol_InductionOnly", "Volatile_Agents_MAC"
  , "Succinylcholine", "Atracurium", "Cisatracurium", "Vecuronium"
  , "Nausea_gt_30min", "Vomiting_gt_2", "Abdominal_Discomfort"
  , "Hybrid_PONV_Score" ]

/-- One data row of the export: every field of the record in column
order, then the score, each cell as its exact rational value. -/
def toCells (sr : ScoredRecord) : List Rat :=
  [ sr.record.Gender_Female, sr.record.Non_Smoker
  , sr.record.History_PONV_or_MS, sr.record.Age_Less_50
  , sr.record.Anxiety, sr.record.Migraine, sr.record.Obese_BMI_30
  , sr.record.Abdominal_Lap_Surgery, sr.record.ENT_Neuro_Eye_Surgery
  , sr.record.Gynae_Breast_Surgery, sr.record.Surgery_gt_60min
  , sr.record.BloodLoss_gt_500ml
  , sr.record.Ondansetron_mg, sr.record.Midazolam_mg_per_kg
  , sr.record.Dexamethasone_mg, sr.record.Glycopyrrolate_mg
  , sr.record.Nalbuphine_mg, sr.record.Fentanyl_mcg_per_kg
  , sr.record.Butorphanol_mg, sr.record.Pentazocine_mg
  , sr.record.Propofol_TIVA, sr.record.Propofol_InductionOnly
  , sr.record.Volatile_Agents_MAC
  , sr.record.Succinylcholine, sr.record.Atracurium
  , sr.record.Cisatracurium, sr.record.Vecuronium
  , sr.record.Nausea_gt_30min, sr.record.Vomiting_gt_2
  , sr.record.Abdominal_Discomfort
  , sr.Hybrid_PONV_Score ]

/-- A structural CSV document: a header row and a list of data rows,
nothing else (in particular no index column). -/
structure Csv where
  header : List String
  rows : List (List Rat)

/-- The export, from `convert_df` (source line 129-130,
`df.to_csv(index=False)`): header row of the column names, one data row
per scored record in cohort order, no index column.  CSV is the only
format the code defines; no XLSX serialiser exists in the source. -/
def convert_df (scored : List ScoredRecord) : Csv :=
  { header := columns, rows := scored.map toCells }

/-!
## Fallible row access

`score_patient` reads its fields by attribute access on a pandas row: a
missing column makes the access itself fail (an `AttributeError`), while a
present value of any magnitude or sign is used as-is — the function
performs no domain validation.  `Row` models a row whose columns may be
absent, and `score_patient_checked` performs exactly the source's sequence
of field accesses, failing (returning `none`) on the first absent field it
reads; the four muscle-relaxant fields are never read.
-/

/-- A table row in which any column may be absent. -/
structure Row where
  Gender_Female : Option Int
  Non_Smoker : Option Int
  History_PONV_or_MS : Option Int
  Age_Less_50 : Option Int
  Anxiety : Option Int
  Migraine : Option Int
  Obese_BMI_30 : Option Int
  Abdominal_Lap_Surgery : Option Int
  ENT_Neuro_Eye_Surgery : Option Int
  Gynae_Breast_Surgery : Option Int
  Surgery_gt_60min : Option Int
  BloodLoss_gt_500ml : Option Int
  Ondansetron_mg : Option Rat
  Midazolam_mg_per_kg : Option Rat
  Dexamethasone_mg : Option Rat
  Glycopyrrolate_mg : Option Rat
  Nalbuphine_mg : Option Rat
  Fentanyl_mcg_per_kg : Option Rat
  Butorphanol_mg : Option Rat
  Pentazocine_mg : Option Rat
  Propofol_TIVA : Option Int
  Propofol_InductionOnly : Option Int
  Volatile_Agents_MAC : Option Rat
  Succinylcholine : Option Int
  Atracurium : Option Int
  Cisatracurium : Option Int
  Vecuronium : Option Int
  Nausea_gt_30min : Option Int
  Vomiting_gt_2 : Option Int
  Abdominal_Discomfort : Option Int

/-- Fallible addition of a contribution to the running total: fails if
either the total so far or the new field read failed. -/
def addOpt (acc t : Option Int) : Option Int :=
  acc.bind (fun a => t.map (fun b => a + b))

/-- The patient-specific and surgical summands of `score_patient` in
source order, each reading its one field of the row: an absent field makes
that read, and with it the whole score, fail. -/
def scoreTermsBinary (row : Row) : List (Option Int) :=
  [ row.Gender_Female.map (fun x => x * 1)
  , row.Non_Smoker.map (fun x => x * 1)
  , row.History_PONV_or_MS.map (fun x => x * 2)
  , row.Age_Less_50.map (fun x => x * 1)
  , row.Anxiety.map (fun x => x * 1)
  , row.Migraine.map (fun x => x * 1)
  , row.Obese_BMI_30.map (fun x => x * 1)
  , row.Abdominal_Lap_Surgery.map (fun x => x * 2)
  , row.ENT_Neuro_Eye_Surgery.map (fun x => x * 1)
  , row.Gynae_Breast_Surgery.map (fun x => x * 2)
  , row.Surgery_gt_60min.map (fun x => x * 1)
  , row.BloodLoss_gt_500ml.map (fun x => x * 1) ]

/-- The dose-dependent summands of `score_patient` in source order. -/
def scoreTermsDrug (row : Row) : List (Option Int) :=
  [ row.Ondansetron_mg.map (fun x => if x ≥ 4 then -2 else 0)
  , row.Midazolam_mg_per_kg.map (fun x => if x ≥ 0.05 then -2 else 0)
  , row.Dexamethasone_mg.map (fun x => if x ≥ 4 then -1 else 0)
  , row.Glycopyrrolate_mg.map (fun x => if x > 0.2 then 1 else 0)
  , row.Nalbuphine_mg.map (fun x => if x > 50 then 1 else 0)
  , row.Fentanyl_mcg_per_kg.map (fun x => if x > 5 then 3 else 0)
  , row.Butorphanol_mg.map (fun x => if x > 2 then 1 else 0)
  , row.Pentazocine_mg.map (fun x => if x > 100 then 3 else 0)
  , row.Propofol_TIVA.map (fun x => if x = 1 then -3 else 0)
  , row.Propofol_InductionOnly.map (fun x => if x = 1 then -1 else 0)
  , row.Volatile_Agents_MAC.map (fun x => if x > 1 then 2 else 0) ]

/-- The postoperative-symptom summands of `score_patient` in source
order. -/
def scoreTermsPostop (row : Row) : List (Option Int) :=
  [ row.Nausea_gt_30min.map (fun x => x * 1)
  , row.Vomiting_gt_2.map (fun x => x * 2)
  , row.Abdominal_Discomfort.map (fun x => x * 1) ]

/-- All 26 summands of `score_patient`, in the order the source reads and
adds them; the four muscle-relaxant fields are never read. -/
def scoreTerms (row : Row) : List (Option Int) :=
  scoreTermsBinary row ++ scoreTermsDrug row ++ scoreTermsPostop row

/-- `score_patient` with the source's field accesses made explicit: the
running total of line 80 onwards, accumulated over the 26 summands, where
reading an absent column fails the computation (the `AttributeError` a
pandas row raises), and a value that is present is used as-is with no
domain check. -/
def score_patient_checked (row : Row) : Option Int :=
  (scoreTerms row).foldl addOpt (some 0)

/-- A row with every column present, holding the values of a given
record. -/
def Row.ofRecord (r : PatientRecord) : Row :=
  { Gender_Female := some r.Gender_Female
    Non_Smoker := some r.Non_Smoker
    History_PONV_or_MS := some r.History_PONV_or_MS
    Age_Less_50 := some r.Age_Less_50
    Anxiety := some r.Anxiety
    Migraine := some r.Migraine
    Obese_BMI_30 := some r.Obese_BMI_30
    Abdominal_Lap_Surgery := some r.Abdominal_Lap_Surgery
    ENT_Neuro_Eye_Surgery := some r.ENT_Neuro_Eye_Surgery
    Gynae_Breast_Surgery := some r.Gynae_Breast_Surgery
    Surgery_gt_60min := some r.Surgery_gt_60min
    BloodLoss_gt_500ml := some r.BloodLoss_gt_500ml
    Ondansetron_mg := some r.Ondansetron_mg
    Midazolam_mg_per_kg := some r.Midazolam_mg_per_kg
    Dexamethasone_mg := some r.Dexamethasone_mg
    Glycopyrrolate_mg := some r.Glycopyrrolate_mg
    Nalbuphine_mg := some r.Nalbuphine_mg
    Fentanyl_mcg_per_kg := some r.Fentanyl_mcg_per_kg
    Butorphanol_mg := some r.Butorphanol_mg
    Pentazocine_mg := some r.Pentazocine_mg
    Propofol_TIVA := some r.Propofol_TIVA
    Propofol_InductionOnly := some r.Propofol_InductionOnly
    Volatile_Agents_MAC := some r.Volatile_Agents_MAC
    Succinylcholine := some r.Succinylcholine
    Atracurium := some r.Atracurium
    Cisatracurium := some r.Cisatracurium
    Vecuronium := some r.Vecuronium
    Nausea_gt_30min := some r.Nausea_gt_30min
    Vomiting_gt_2 := some r.Vomiting_gt_2
    Abdominal_Discomfort := some r.Abdominal_Discomfort }

/-!
## Concrete records and helper lemmas
-/

/-- The all-binary-factors-on record: every binary field (muscle
relaxants included) set to 1, both Propofol flags set, and every dose at a
value satisfying its threshold rule's condition. -/
def allOn : PatientRecord :=
  { Gender_Female := 1, Non_Smoker := 1, History_PONV_or_MS := 1
    Age_Less_50 := 1, Anxiety := 1, Migraine := 1, Obese_BMI_30 := 1
    Abdominal_Lap_Surgery := 1, ENT_Neuro_Eye_Surgery := 1
    Gynae_Breast_Surgery := 1, Surgery_gt_60min := 1, BloodLoss_gt_500ml := 1
    Ondansetron_mg := 4, Midazolam_mg_per_kg := 0.05, Dexamethasone_mg := 4
    Glycopyrrolate_mg := 0.3, Nalbuphine_mg := 51, Fentanyl_mcg_per_kg := 6
    Butorphanol_mg := 3, Pentazocine_mg := 101
    Propofol_TIVA := 1, Propofol_InductionOnly := 1, Volatile_Agents_MAC := 2
    Succinylcholine := 1, Atracurium := 1, Cisatracurium := 1, Vecuronium := 1
    Nausea_gt_30min := 1, Vomiting_gt_2 := 1, Abdominal_Discomfort := 1 }

/-- Appending a failed read to the running total fails the total. -/
lemma addOpt_none_right (acc : Option Int) : addOpt acc none = none := by
  cases acc <;> rfl

/-- A failed running total stays failed. -/
lemma addOpt_none_left (t : Option Int) : addOpt none t = none := rfl

/-!
## Claim theorems
-/

/-- C5: the all-binary-factors-on record (every binary field 1, every
dose satisfying its threshold rule) scores exactly the sum of all weights
of the rule table, and the all-zero/all-minimum record scores exactly
0. -/
theorem extreme_records_score :
    score_patient allOn = (specRuleTable.map SpecRule.weight).sum
    ∧ score_patient baseline = 0 := by
  constructor
  · norm_num [score_patient, allOn, specRuleTable, SpecRule.weight]
  · norm_num [score_patient, baseline]

/-- C4: threshold comparators are exactly inclusive/exclusive as
declared: with all other fields held fixed, Ondansetron_mg = 4.0 earns
the -2 contribution while 3.999999 earns 0 (inclusive >=), and
Glycopyrrolate_mg = 0.2 earns 0 while 0.2000001 earns +1 (strict >);
stated both as score deltas on an arbitrary record and as absolute scores
on the all-zero baseline. -/
theorem threshold_boundaries (r : PatientRecord) :
    score_patient { r with Ondansetron_mg := 4 }
      = score_patient { r with Ondansetron_mg := 3.999999 } - 2
    ∧ score_patient { r with Glycopyrrolate_mg := 0.2000001 }
      = score_patient { r with Glycopyrrolate_mg := 0.2 } + 1
    ∧ score_patient { baseline with Ondansetron_mg := 4 } = -2
    ∧ score_patient { baseline with Ondansetron_mg := 3.999999 } = 0
    ∧ score_patient { baseline with Glycopyrrolate_mg := 0.2 } = 0
    ∧ score_patient { baseline with Glycopyrrolate_mg := 0.2000001 } = 1 := by
  refine ⟨?_, ?_, ?_, ?_, ?_, ?_⟩
  · simp only [score_patient]
    norm_num
    ring
  · simp only [score_patient]
    norm_num
    ring
  all_goals norm_num [score_patient, baseline]

/-- C1: for every valid record, the code's score equals the sum over
every rule of the specification's rule table of that rule's
contribution. -/
theorem score_matches_spec_table (r : PatientRecord) (h : ValidRecord r) :
    score_patient r = specScore r := by
  simp only [specScore, specRuleTable, SpecRule.contrib, List.map_cons, List.map_nil,
    List.sum_cons, List.sum_nil, score_patient]
  ring

/-- Witness for C1 at the baseline record. -/
theorem score_matches_spec_table_witness :
    ValidRecord baseline ∧ score_patient baseline = specScore baseline :=
  ⟨by decide, score_matches_spec_table baseline (by decide)⟩

/-- C6: additivity — toggling exactly one rule's field from the
all-zero/all-minimum baseline (to 1 for a binary field, to a
condition-satisfying dose for a threshold field) changes the score by
exactly that rule's weight, for every one of the 26 rules of the
table. -/
theorem rule_toggle_deltas :
    score_patient { baseline with Gender_Female := 1 } = score_patient baseline + 1
    ∧ score_patient { baseline with Non_Smoker := 1 } = score_patient baseline + 1
    ∧ score_patient { baseline with History_PONV_or_MS := 1 } = score_patient baseline + 2
    ∧ score_patient { baseline with Age_Less_50 := 1 } = score_patient baseline + 1
    ∧ score_patient { baseline with Anxiety := 1 } = score_patient baseline + 1
    ∧ score_patient { baseline with Migraine := 1 } = score_patient baseline + 1
    ∧ score_patient { baseline with Obese_BMI_30 := 1 } = score_patient baseline + 1
    ∧ score_patient { baseline with Abdominal_Lap_Surgery := 1 } = score_patient baseline + 2
    ∧ score_patient { baseline with ENT_Neuro_Eye_Surgery := 1 } = score_patient baseline + 1
    ∧ score_patient { baseline with Gynae_Breast_Surgery := 1 } = score_patient baseline + 2
    ∧ score_patient { baseline with Surgery_gt_60min := 1 } = score_patient baseline + 1
    ∧ score_patient { baseline with BloodLoss_gt_500ml := 1 } = score_patient baseline + 1
    ∧ score_patient { baseline with Ondansetron_mg := 4 } = score_patient baseline - 2
    ∧ score_patient { baseline with Midazolam_mg_per_kg := 0.05 } = score_patient baseline - 2
    ∧ score_patient { baseline with Dexamethasone_mg := 4 } = score_patient baseline - 1
    ∧ score_patient { baseline with Glycopyrrolate_mg := 0.3 } = score_patient baseline + 1
    ∧ score_patient { baseline with Nalbuphine_mg := 51 } = score_patient baseline + 1
    ∧ score_patient { baseline with Fentanyl_mcg_per_kg := 6 } = score_patient baseline + 3
    ∧ score_patient { baseline with Butorphanol_mg := 3 } = score_patient baseline + 1
    ∧ score_patient { baseline with Pentazocine_mg := 101 } = score_patient baseline + 3
    ∧ score_patient { baseline with Propofol_TIVA := 1 } = score_patient baseline - 3
    ∧ score_patient { baseline with Propofol_InductionOnly := 1 } = score_patient baseline - 1
    ∧ score_patient { baseline with Volatile_Agents_MAC := 2 } = score_patient baseline + 2
    ∧ score_patient { baseline with Nausea_gt_30min := 1 } = score_patient baseline + 1
    ∧ score_patient { baseline with Vomiting_gt_2 := 1 } = score_patient baseline + 2
    ∧ score_patient { baseline with Abdominal_Discomfort := 1 } = score_patient baseline + 1 := by
  refine ⟨?_,?_,?_,?_,?_,?_,?_,?_,?_,?_,?_,?_,?_,?_,?_,?_,?_,?_,?_,?_,?_,?_,?_,?_,?_,?_⟩
    <;> norm_num [score_patient, baseline]

/-- C7: noninterference of the muscle-relaxant fields — replacing
Succinylcholine, Atracurium, Cisatracurium and Vecuronium by any values
whatsoever leaves the score of any record unchanged, and the four fields
are preserved as pass-through columns of the scored output table, both in
the header (positions 23-26) and in every data row. -/
theorem muscle_relaxants_noninterference :
    (∀ (r : PatientRecord) (a b c d : Int),
      score_patient
        { r with
          Succinylcholine := a
          Atracurium := b
          Cisatracurium := c
          Vecuronium := d } = score_patient r)
    ∧ columns[23]? = some "Succinylcholine"
    ∧ columns[24]? = some "Atracurium"
    ∧ columns[25]? = some "Cisatracurium"
    ∧ columns[26]? = some "Vecuronium"
    ∧ (∀ sr : ScoredRecord,
        (toCells sr)[23]? = some (sr.record.Succinylcholine : Rat)
        ∧ (toCells sr)[24]? = some (sr.record.Atracurium : Rat)
        ∧ (toCells sr)[25]? = some (sr.record.Cisatracurium : Rat)
        ∧ (toCells sr)[26]? = some (sr.record.Vecuronium : Rat)) :=
  ⟨fun r a b c d => rfl, rfl, rfl, rfl, rfl, fun sr => ⟨rfl, rfl, rfl, rfl⟩⟩

/-- C8: cohort scoring preserves order and cardinality — the output has
the same length as the input and the i-th output record is the i-th input
record extended with its own score, with no cross-record dependency. -/
theorem scoreCohort_pointwise (cohort : List PatientRecord) :
    (scoreCohort cohort).length = cohort.length
    ∧ ∀ i : Nat, (scoreCohort cohort)[i]? =
        (cohort[i]?).map (fun r => { record := r, Hybrid_PONV_Score := score_patient r }) := by
  refine ⟨by simp [scoreCohort], fun i => ?_⟩
  simp [scoreCohort, List.getElem?_map]

/-- C10: Propofol equality semantics — the two Propofol contributions
are equality tests against 1, so any other value (including the
out-of-domain 2) contributes 0, while every other binary-rule field
contributes weight times its value and hence scales linearly with
out-of-domain values. -/
theorem propofol_equality_semantics :
    (∀ v : Int, score_patient { baseline with Propofol_TIVA := v }
      = if v = 1 then -3 else 0)
    ∧ (∀ v : Int, score_patient { baseline with Propofol_InductionOnly := v }
      = if v = 1 then -1 else 0)
    ∧ score_patient { baseline with Propofol_TIVA := 2 } = 0
    ∧ score_patient { baseline with Gender_Female := 2 } = 2
    ∧ (∀ v : Int, score_patient { baseline with Gender_Female := v } = v * 1)
    ∧ (∀ v : Int, score_patient { baseline with Non_Smoker := v } = v * 1)
    ∧ (∀ v : Int, score_patient { baseline with History_PONV_or_MS := v } = v * 2)
    ∧ (∀ v : Int, score_patient { baseline with Age_Less_50 := v } = v * 1)
    ∧ (∀ v : Int, score_patient { baseline with Anxiety := v } = v * 1)
    ∧ (∀ v : Int, score_patient { baseline with Migraine := v } = v * 1)
    ∧ (∀ v : Int, score_patient { baseline with Obese_BMI_30 := v } = v * 1)
    ∧ (∀ v : Int, score_patient { baseline with Abdominal_Lap_Surgery := v } = v * 2)
    ∧ (∀ v : Int, score_patient { baseline with ENT_Neuro_Eye_Surgery := v } = v * 1)
    ∧ (∀ v : Int, score_patient { baseline with Gynae_Breast_Surgery := v } = v * 2)
    ∧ (∀ v : Int, score_patient { baseline with Surgery_gt_60min := v } = v * 1)
    ∧ (∀ v : Int, score_patient { baseline with BloodLoss_gt_500ml := v } = v * 1)
    ∧ (∀ v : Int, score_patient { baseline with Nausea_gt_30min := v } = v * 1)
    ∧ (∀ v : Int, score_patient { baseline with Vomiting_gt_2 := v } = v * 2)
    ∧ (∀ v : Int, score_patient { baseline with Abdominal_Discomfort := v } = v * 1) := by
  refine ⟨?_,?_,?_,?_,?_,?_,?_,?_,?_,?_,?_,?_,?_,?_,?_,?_,?_,?_,?_⟩
    <;> (try intro v) <;> norm_num [score_patient, baseline]

/-- C2 counterexample: the claim "score rejects invalid input" is false
on the code — a row missing the (required, schema-declared but never
read) Succinylcholine field is scored without failure, a binary field
holding the out-of-domain value 2 is scored (to 2) rather than rejected,
and a negative dose is scored without error. -/
theorem score_no_validation_cex :
    score_patient_checked { Row.ofRecord baseline with Succinylcholine := none } = some 0
    ∧ score_patient_checked { Row.ofRecord baseline with Gender_Female := some 2 } = some 2
    ∧ score_patient_checked (Row.ofRecord { baseline with Ondansetron_mg := -1 }) = some 0 := by
  refine ⟨?_, ?_, ?_⟩ <;>
    norm_num [score_patient_checked, scoreTerms, scoreTermsBinary, scoreTermsDrug,
      scoreTermsPostop, Row.ofRecord, baseline, addOpt]

/-- C2 amended: a field `score_patient` reads that is missing makes
scoring fail (the attribute lookup failure), but the function performs no
domain validation — every record with all columns present is scored
as-is, whatever its values, and the four muscle-relaxant columns are
never read, so their absence goes undetected. -/
theorem score_checked_amended :
    (∀ r : PatientRecord, score_patient_checked (Row.ofRecord r) = some (score_patient r))
    ∧ (∀ row : Row, row.Gender_Female = none → score_patient_checked row = none)
    ∧ (∀ row : Row, row.Abdominal_Discomfort = none → score_patient_checked row = none) := by
  refine ⟨fun r => ?_, fun row h => ?_, fun row h => ?_⟩
  · simp [score_patient_checked, scoreTerms, scoreTermsBinary, scoreTermsDrug,
      scoreTermsPostop, Row.ofRecord, addOpt, score_patient]
  · simp [score_patient_checked, scoreTerms, scoreTermsBinary, scoreTermsDrug,
      scoreTermsPostop, addOpt, h]
  · simp [score_patient_checked, scoreTerms, scoreTermsBinary, scoreTermsDrug,
      scoreTermsPostop, h, List.foldl_append, addOpt_none_right]

/-- Witness for the amended C2 at concrete rows. -/
theorem score_checked_amended_witness :
    score_patient_checked (Row.ofRecord baseline) = some (score_patient baseline)
    ∧ score_patient_checked { Row.ofRecord baseline with Gender_Female := none } = none
    ∧ score_patient_checked { Row.ofRecord baseline with Abdominal_Discomfort := none } = none :=
  ⟨score_checked_amended.1 baseline,
   score_checked_amended.2.1 _ rfl,
   score_checked_amended.2.2 _ rfl⟩

/-- C3 (CSV part): the export's header equals the column list (schema
declaration order then the score column), there is one data row per
record in cohort order, and every data row has exactly one cell per
column (no index column).  The code defines no XLSX serialiser, so the
XLSX half of the claim has no code to satisfy it. -/
theorem convert_df_layout (scored : List ScoredRecord) :
    (convert_df scored).header = columns
    ∧ (convert_df scored).rows.length = scored.length
    ∧ (∀ i : Nat, (convert_df scored).rows[i]? = (scored[i]?).map toCells)
    ∧ (∀ sr : ScoredRecord, (toCells sr).length = columns.length) := by
  refine ⟨rfl, by simp [convert_df], fun i => by simp [convert_df, List.getElem?_map],
    fun sr => rfl⟩

/-- C9: for every valid record the score lies between the sum of the
negative weights (-9) and the sum of the positive weights (30) of the
rule table. -/
theorem score_bounds (r : PatientRecord) (h : ValidRecord r) :
    -9 ≤ score_patient r ∧ score_patient r ≤ 30 := by
  obtain ⟨h1, h2, h3, h4, h5, h6, h7, h8, h9, h10, h11, h12, hd1, hd2, hd3, hd4, hd5,
    hd6, hd7, hd8, hp1, hp2, hd9, hm1, hm2, hm3, hm4, h13, h14, h15⟩ := h
  have b1 : 0 ≤ r.Gender_Female * 1 ∧ r.Gender_Female * 1 ≤ 1 := by
    rcases h1 with h | h <;> simp [h]
  have b2 : 0 ≤ r.Non_Smoker * 1 ∧ r.Non_Smoker * 1 ≤ 1 := by
    rcases h2 with h | h <;> simp [h]
  have b3 : 0 ≤ r.History_PONV_or_MS * 2 ∧ r.History_PONV_or_MS * 2 ≤ 2 := by
    rcases h3 with h | h <;> simp [h]
  have b4 : 0 ≤ r.Age_Less_50 * 1 ∧ r.Age_Less_50 * 1 ≤ 1 := by
    rcases h4 with h | h <;> simp [h]
  have b5 : 0 ≤ r.Anxiety * 1 ∧ r.Anxiety * 1 ≤ 1 := by
    rcases h5 with h | h <;> simp [h]
  have b6 : 0 ≤ r.Migraine * 1 ∧ r.Migraine * 1 ≤ 1 := by
    rcases h6 with h | h <;> simp [h]
  have b7 : 0 ≤ r.Obese_BMI_30 * 1 ∧ r.Obese_BMI_30 * 1 ≤ 1 := by
    rcases h7 with h | h <;> simp [h]
  have b8 : 0 ≤ r.Abdominal_Lap_Surgery * 2 ∧ r.Abdominal_Lap_Surgery * 2 ≤ 2 := by
    rcases h8 with h | h <;> simp [h]
  have b9 : 0 ≤ r.ENT_Neuro_Eye_Surgery * 1 ∧ r.ENT_Neuro_Eye_Surgery * 1 ≤ 1 := by
    rcases h9 with h | h <;> simp [h]
  have b10 : 0 ≤ r.Gynae_Breast_Surgery * 2 ∧ r.Gynae_Breast_Surgery * 2 ≤ 2 := by
    rcases h10 with h | h <;> simp [h]
  have b11 : 0 ≤ r.Surgery_gt_60min * 1 ∧ r.Surgery_gt_60min * 1 ≤ 1 := by
    rcases h11 with h | h <;> simp [h]
  have b12 : 0 ≤ r.BloodLoss_gt_500ml * 1 ∧ r.BloodLoss_gt_500ml * 1 ≤ 1 := by
    rcases h12 with h | h <;> simp [h]
  have b13 : 0 ≤ r.Nausea_gt_30min * 1 ∧ r.Nausea_gt_30min * 1 ≤ 1 := by
    rcases h13 with h | h <;> simp [h]
  have b14 : 0 ≤ r.Vomiting_gt_2 * 2 ∧ r.Vomiting_gt_2 * 2 ≤ 2 := by
    rcases h14 with h | h <;> simp [h]
  have b15 : 0 ≤ r.Abdominal_Discomfort * 1 ∧ r.Abdominal_Discomfort * 1 ≤ 1 := by
    rcases h15 with h | h <;> simp [h]
  have c1 : -2 ≤ (if r.Ondansetron_mg ≥ 4 then (-2 : Int) else 0)
      ∧ (if r.Ondansetron_mg ≥ 4 then (-2 : Int) else 0) ≤ 0 := by
    split <;> norm_num
  have c2 : -2 ≤ (if r.Midazolam_mg_per_kg ≥ 0.05 then (-2 : Int) else 0)
      ∧ (if r.Midazolam_mg_per_kg ≥ 0.05 then (-2 : Int) else 0) ≤ 0 := by
    split <;> norm_num
  have c3 : -1 ≤ (if r.Dexamethasone_mg ≥ 4 then (-1 : Int) else 0)
      ∧ (if r.Dexamethasone_mg ≥ 4 then (-1 : Int) else 0) ≤ 0 := by
    split <;> norm_num
  have c4 : 0 ≤ (if r.Glycopyrrolate_mg > 0.2 then (1 : Int) else 0)
      ∧ (if r.Glycopyrrolate_mg > 0.2 then (1 : Int) else 0) ≤ 1 := by
    split <;> norm_num
  have c5 : 0 ≤ (if r.Nalbuphine_mg > 50 then (1 : Int) else 0)
      ∧ (if r.Nalbuphine_mg > 50 then (1 : Int) else 0) ≤ 1 := by
    split <;> norm_num
  have c6 : 0 ≤ (if r.Fentanyl_mcg_per_kg > 5 then (3 : Int) else 0)
      ∧ (if r.Fentanyl_mcg_per_kg > 5 then (3 : Int) else 0) ≤ 3 := by
    split <;> norm_num
  have c7 : 0 ≤ (if r.Butorphanol_mg > 2 then (1 : Int) else 0)
      ∧ (if r.Butorphanol_mg > 2 then (1 : Int) else 0) ≤ 1 := by
    split <;> norm_num
  have c8 : 0 ≤ (if r.Pentazocine_mg > 100 then (3 : Int) else 0)
      ∧ (if r.Pentazocine_mg > 100 then (3 : Int) else 0) ≤ 3 := by
    split <;> norm_num
  have c9 : -3 ≤ (if r.Propofol_TIVA = 1 then (-3 : Int) else 0)
      ∧ (if r.Propofol_TIVA = 1 then (-3 : Int) else 0) ≤ 0 := by
    split <;> norm_num
  have c10 : -1 ≤ (if r.Propofol_InductionOnly = 1 then (-1 : Int) else 0)
      ∧ (if r.Propofol_InductionOnly = 1 then (-1 : Int) else 0) ≤ 0 := by
    split <;> norm_num
  have c11 : 0 ≤ (if r.Volatile_Agents_MAC > 1 then (2 : Int) else 0)
      ∧ (if r.Volatile_Agents_MAC > 1 then (2 : Int) else 0) ≤ 2 := by
    split <;> norm_num
  unfold score_patient
  constructor <;>
    linarith [b1.1, b1.2, b2.1, b2.2, b3.1, b3.2, b4.1, b4.2, b5.1, b5.2, b6.1, b6.2,
      b7.1, b7.2, b8.1, b8.2, b9.1, b9.2, b10.1, b10.2, b11.1, b11.2, b12.1, b12.2,
      b13.1, b13.2, b14.1, b14.2, b15.1, b15.2, c1.1, c1.2, c2.1, c2.2, c3.1, c3.2,
      c4.1, c4.2, c5.1, c5.2, c6.1, c6.2, c7.1, c7.2, c8.1, c8.2, c9.1, c9.2,
      c10.1, c10.2, c11.1, c11.2]

/-- Witness for C9 at the baseline record. -/
theorem score_bounds_witness :
    ValidRecord baseline
    ∧ (-9 ≤ score_patient baseline ∧ score_patient baseline ≤ 30) :=
  ⟨by decide, score_bounds baseline (by decide)⟩
